import Mathlib

/-!
Shallow embedding of the order-manager core of the cpapi-app repository
(src/app/manager.py), together with theorems checking the specification's
claims about it.

Conventions of the embedding:
- Python floats are modelled as exact rationals (ℚ).
- Python dicts keyed by strings are modelled as association lists
  (`List (String × α)`) with first-match lookup and in-place overwrite,
  matching insertion-ordered dict semantics.
- Python `None` for a position side is `Option.none`; the side strings
  "BUY"/"SELL" are kept as strings, as in the source.
- Fallible steps return `Except`; an `Except.error` value carries the
  state at the moment the Python exception is raised (mutations performed
  before the raise are visible in it), since only `KeyboardInterrupt` is
  caught by the `run` loop.
-/

/-- Modelled from the source and spec section 3: `app/models.py` is not in
src; the `Order` fields are those read by manager.py (id, portfolio_id,
symbol, order_type, side, quantity, limit_price). -/
structure Order where
  id : String
  portfolio_id : String
  symbol : String
  order_type : String
  side : String
  quantity : ℚ
  limit_price : ℚ
  deriving DecidableEq

/-- Modelled from the source and spec section 3: `app/models.py` is not in
src; the `Position` fields are those constructed in
`OrderManager.__create_position` (symbol, quantity, side, conid, value).
The side is `Option String` because `__update_existing_position` assigns
Python `None` to a fully netted position. -/
structure Position where
  symbol : String
  quantity : ℚ
  side : Option String
  conid : Int
  value : ℚ
  deriving DecidableEq

/-- Modelled from the source and spec section 3: `app/models.py` is not in
src; a `Portfolio` document holds the order references filtered by
`OrderManager.__remove_order` and the positions list mutated by
`OrderManager.__update_positions`. -/
structure Portfolio where
  id : String
  orders : List Order
  positions : List Position
  deriving DecidableEq

/-- A usable bid/ask quote, the value stored in `__symbol_price_map`
(fields "84" = bid, "86" = ask). -/
structure Quote where
  bid : ℚ
  ask : ℚ
  deriving DecidableEq

/-- One element of the list returned by `market_data_snapshot`: the
`conidEx` key plus the optional "84" (bid) and "86" (ask) fields. -/
structure Snapshot where
  conidEx : Int
  field84 : Option ℚ
  field86 : Option ℚ
  deriving DecidableEq

/-- The mutable state the order manager reads and writes: the pending
orders collection, the portfolios collection (keyed by portfolio id), and
the two per-cycle maps `__symbol_conid_map` and `__symbol_price_map`. -/
structure ManagerState where
  ordersStore : List Order
  portfolios : List (String × Portfolio)
  symbolConidMap : List (String × Int)
  symbolPriceMap : List (String × Quote)
  deriving DecidableEq

/-- First-match lookup in an association list (Python dict access). -/
def lookupA {α : Type} : List (String × α) → String → Option α
  | [], _ => Option.none
  | kv :: rest, k => if kv.1 = k then some kv.2 else lookupA rest k

/-- Overwrite-or-insert in an association list (Python dict assignment,
and the portfolio document `set`). -/
def setA {α : Type} : List (String × α) → String → α → List (String × α)
  | [], k, v => [(k, v)]
  | kv :: rest, k, v =>
      if kv.1 = k then (k, v) :: rest else kv :: setA rest k v

/-- The inline side recomputation of `__update_existing_position`
(manager.py lines 209-214): negative quantity is SELL, positive is BUY,
zero is Python `None`. -/
def sideOfQty (q : ℚ) : Option String :=
  if q < 0 then some "SELL" else if 0 < q then some "BUY" else Option.none

/-- `OrderManager.__update_existing_buy_position` (manager.py 219-231):
a BUY fill adds quantity and value, anything else subtracts them. -/
def updateExistingBuyPosition (ex fill : Position) : Position :=
  if fill.side = some "BUY" then
    { ex with quantity := ex.quantity + fill.quantity,
              value := ex.value + fill.value }
  else
    { ex with quantity := ex.quantity - fill.quantity,
              value := ex.value - fill.value }

/-- `OrderManager.__update_existing_sell_position` (manager.py 233-245):
a BUY fill subtracts quantity and value, anything else adds them. -/
def updateExistingSellPosition (ex fill : Position) : Position :=
  if fill.side = some "BUY" then
    { ex with quantity := ex.quantity - fill.quantity,
              value := ex.value - fill.value }
  else
    { ex with quantity := ex.quantity + fill.quantity,
              value := ex.value + fill.value }

/-- `OrderManager.__update_existing_position` (manager.py 199-217):
dispatch on the existing side, then recompute the side from the sign of
the resulting quantity. When the existing side is neither "BUY" nor
"SELL" the Python function raises `UnboundLocalError`; that is the
`Option.none` result (its only caller guards `side != None`, so reachable
states only hit it for a non-BUY non-SELL string side). -/
def updateExistingPosition (ex fill : Position) : Option Position :=
  if ex.side = some "BUY" then
    let upd := updateExistingBuyPosition ex fill
    some { upd with side := sideOfQty upd.quantity }
  else if ex.side = some "SELL" then
    let upd := updateExistingSellPosition ex fill
    some { upd with side := sideOfQty upd.quantity }
  else
    Option.none

/-- The list comprehension of `__update_positions` (manager.py 187-192):
every stored position whose symbol matches the updated position is
replaced by the updated position. -/
def replacePositions (ps : List Position) (upd : Position) : List Position :=
  ps.map (fun p => if p.symbol == upd.symbol then upd else p)

/-- The position-list part of `__update_positions` (manager.py 174-195):
find the first position with the fill's symbol; if it exists and its side
is not `None`, net the fill into it, otherwise append the fill as a new
position. `Option.none` models the uncaught `UnboundLocalError` from
`updateExistingPosition`. -/
def computeNewPositions (positions : List Position) (fill : Position) :
    Option (List Position) :=
  match positions.find? (fun p => p.symbol == fill.symbol) with
  | Option.none => some (positions ++ [fill])
  | some ex =>
      if ex.side = Option.none then some (positions ++ [fill])
      else (updateExistingPosition ex fill).map
        (fun upd => replacePositions positions upd)

/-- `OrderManager.__update_positions` together with `__remove_order`
(manager.py 162-197 and 253-261), with the final portfolio-document write
allowed to fail (`writeOk = false`). Order of effects mirrors the source:
the portfolio is read and the new position list computed first, then the
order is deleted from the pending store, then the order reference is
filtered out of the portfolio, and only then is the portfolio document
written. A failed write raises after the pending-store delete, so the
error state already lacks the order. A missing portfolio document or an
`UnboundLocalError` raises before any mutation. -/
def updatePositionsFallible (writeOk : Bool) (fill : Position) (o : Order)
    (s : ManagerState) : Except ManagerState ManagerState :=
  match lookupA s.portfolios o.portfolio_id with
  | Option.none => Except.error s
  | some pf =>
      match computeNewPositions pf.positions fill with
      | Option.none => Except.error s
      | some ps =>
          let s1 : ManagerState :=
            { s with ordersStore := s.ordersStore.filter (fun x => x.id != o.id) }
          let pf3 : Portfolio :=
            { pf with positions := ps,
                      orders := pf.orders.filter (fun x => x.id != o.id) }
          if writeOk then
            Except.ok { s1 with portfolios := setA s1.portfolios o.portfolio_id pf3 }
          else Except.error s1

/-- `OrderManager.__create_position` (manager.py 118-133): build the fill
record from the order and the fill price; the conid lookup is a Python
dict access that raises `KeyError` when the symbol is unmapped
(`Option.none`). -/
def createPosition (o : Order) (fillPrice : ℚ)
    (conidMap : List (String × Int)) : Option Position :=
  (lookupA conidMap o.symbol).map (fun cid =>
    { symbol := o.symbol, quantity := o.quantity, side := some o.side,
      conid := cid, value := o.quantity * fillPrice })

/-- `OrderManager.__process_market_order` (manager.py 135-144): fill price
is the ask for a BUY side and the bid otherwise; the fill always goes to
the ledger. -/
def processMarketOrder (writeOk : Bool) (o : Order) (askPrice bidPrice : ℚ)
    (s : ManagerState) : Except ManagerState ManagerState :=
  let fillPrice := if o.side = "BUY" then askPrice else bidPrice
  match createPosition o fillPrice s.symbolConidMap with
  | Option.none => Except.error s
  | some fill => updatePositionsFallible writeOk fill o s

/-- `OrderManager.__process_limit_order` (manager.py 146-160): a BUY with
ask above the limit, or a SELL with bid below the limit, returns without
any effect; otherwise the order fills exactly like a market order. -/
def processLimitOrder (writeOk : Bool) (o : Order) (askPrice bidPrice : ℚ)
    (s : ManagerState) : Except ManagerState ManagerState :=
  if o.side = "BUY" ∧ askPrice > o.limit_price then Except.ok s
  else if o.side = "SELL" ∧ bidPrice < o.limit_price then Except.ok s
  else
    let fillPrice := if o.side = "BUY" then askPrice else bidPrice
    match createPosition o fillPrice s.symbolConidMap with
    | Option.none => Except.error s
    | some fill => updatePositionsFallible writeOk fill o s

/-- `OrderManager.__process_order_single` (manager.py 103-116): read the
quote (a `KeyError` if absent, but every caller guards membership), then
dispatch on the order type, defaulting unknown types to market
semantics. -/
def processOrderSingle (writeOk : Bool) (o : Order) (s : ManagerState) :
    Except ManagerState ManagerState :=
  match lookupA s.symbolPriceMap o.symbol with
  | Option.none => Except.error s
  | some q =>
      if o.order_type = "MKT" then processMarketOrder writeOk o q.ask q.bid s
      else if o.order_type = "LMT" then processLimitOrder writeOk o q.ask q.bid s
      else processMarketOrder writeOk o q.ask q.bid s

/-- The body of the loop in `OrderManager.__process_orders`
(manager.py 88-101): orders whose symbol has no quote this cycle are
skipped with no effect. -/
def processOrderStep (writeOk : Bool) (o : Order) (s : ManagerState) :
    Except ManagerState ManagerState :=
  match lookupA s.symbolPriceMap o.symbol with
  | Option.none => Except.ok s
  | some _ => processOrderSingle writeOk o s

/-- `OrderManager.__process_orders` (manager.py 88-101): process the
cycle's order list in sequence; an uncaught exception aborts the loop. -/
def processOrders (writeOk : Bool) : List Order → ManagerState →
    Except ManagerState ManagerState
  | [], s => Except.ok s
  | o :: rest, s =>
      match processOrderStep writeOk o s with
      | Except.ok s2 => processOrders writeOk rest s2
      | Except.error s2 => Except.error s2

/-- Reverse lookup of `__get_market_data_snapshots` (manager.py 76-78):
`list(keys)[list(values).index(conid)]`, the first key whose value equals
the returned conid; `Option.none` is the uncaught `ValueError` raised by
`.index` when the conid is absent. -/
def revLookup : List (String × Int) → Int → Option String
  | [], _ => Option.none
  | kv :: rest, cid => if kv.2 = cid then some kv.1 else revLookup rest cid

/-- The snapshot loop of `__get_market_data_snapshots` (manager.py 75-85):
for each snapshot, reverse-look-up the symbol (raising on an unmapped
conid — this happens before the field check), drop the snapshot unless
both field "84" (bid) and field "86" (ask) are present, otherwise store
the quote. `Except.error` carries the price map built before the raise. -/
def processSnapshots (conidMap : List (String × Int)) :
    List Snapshot → List (String × Quote) →
    Except (List (String × Quote)) (List (String × Quote))
  | [], acc => Except.ok acc
  | snap :: rest, acc =>
      match revLookup conidMap snap.conidEx with
      | Option.none => Except.error acc
      | some sym =>
          match snap.field84, snap.field86 with
          | some b, some a => processSnapshots conidMap rest (setA acc sym ⟨b, a⟩)
          | _, _ => processSnapshots conidMap rest acc

/-- `OrderManager.__get_market_data_snapshots` (manager.py 61-86), taking
the outcome of the `market_data_snapshot` API call as input. The price
map was cleared by `__map_orders_to_conids` just before, so processing
starts from the empty map; an empty conid map short-circuits, and a
wholesale API failure is caught, logged and swallowed, leaving the price
map empty. -/
def getMarketDataSnapshots (conidMap : List (String × Int))
    (snapResult : Except String (List Snapshot)) :
    Except (List (String × Quote)) (List (String × Quote)) :=
  if conidMap = [] then Except.ok []
  else
    match snapResult with
    | Except.error _ => Except.ok []
    | Except.ok snaps => processSnapshots conidMap snaps []

/-- `OrderManager.__map_orders_to_conids` (manager.py 42-59): with no
pending orders the map stays empty without querying the directory;
otherwise the contracts whose symbol occurs in some order are folded into
the symbol-to-conid dict. -/
def mapOrdersToConids (directory : List (String × Int)) (orders : List Order) :
    List (String × Int) :=
  if orders = [] then []
  else
    (directory.filter (fun kv => (orders.map (fun o => o.symbol)).contains kv.1)).foldl
      (fun acc kv => setA acc kv.1 kv.2) []

/-- One iteration of the loop body of `OrderManager.run` (manager.py
277-287): refresh orders from the store, rebuild the conid map, refresh
quotes, process orders. The directory models the contracts collection and
`snapResult` the quote-source call this cycle. Any uncaught exception is
an `Except.error`. -/
def runCycle (writeOk : Bool) (directory : List (String × Int))
    (snapResult : Except String (List Snapshot)) (s : ManagerState) :
    Except ManagerState ManagerState :=
  let orders := s.ordersStore
  let conidMap := mapOrdersToConids directory orders
  let s1 : ManagerState := { s with symbolConidMap := conidMap, symbolPriceMap := [] }
  match getMarketDataSnapshots conidMap snapResult with
  | Except.error pm => Except.error { s1 with symbolPriceMap := pm }
  | Except.ok pm => processOrders writeOk orders { s1 with symbolPriceMap := pm }

/-- The `while True` loop of `OrderManager.run` (manager.py 277-290): one
quote-source outcome per cycle; only `KeyboardInterrupt` is caught, so
any other exception terminates the loop with the cycles that remain
unprocessed. -/
def runLoop (writeOk : Bool) (directory : List (String × Int)) :
    List (Except String (List Snapshot)) → ManagerState →
    Except ManagerState ManagerState
  | [], s => Except.ok s
  | r :: rest, s =>
      match runCycle writeOk directory r s with
      | Except.error e => Except.error e
      | Except.ok s2 => runLoop writeOk directory rest s2

/-- The fill decision implicit in `__process_orders`,
`__process_order_single` and `__process_limit_order`: an order fills this
cycle exactly when its symbol has a quote and it is not a limit order
whose limit is unsatisfied. -/
def orderFills (o : Order) (s : ManagerState) : Bool :=
  match lookupA s.symbolPriceMap o.symbol with
  | Option.none => false
  | some q =>
      if o.order_type = "LMT" then
        if o.side = "BUY" ∧ q.ask > o.limit_price then false
        else if o.side = "SELL" ∧ q.bid < o.limit_price then false
        else true
      else true

theorem lookupA_setA_self {α : Type} (m : List (String × α)) (k : String) (v : α) :
    lookupA (setA m k v) k = some v := by
  induction m with
  | nil => simp [setA, lookupA]
  | cons kv rest ih =>
      by_cases h : kv.1 = k
      · simp [setA, h, lookupA]
      · simp [setA, h, lookupA, ih]

theorem replacePositions_map_symbol (ps : List Position) (upd : Position) :
    (replacePositions ps upd).map Position.symbol = ps.map Position.symbol := by
  induction ps with
  | nil => rfl
  | cons p rest ih =>
      by_cases h : p.symbol = upd.symbol
      · simpa [replacePositions, h] using ih
      · simpa [replacePositions, h] using ih

theorem length_replacePositions (ps : List Position) (upd : Position) :
    (replacePositions ps upd).length = ps.length := by
  simp [replacePositions]

theorem mem_replacePositions (ps : List Position) (upd ex : Position)
    (hmem : ex ∈ ps) (hsym : ex.symbol = upd.symbol) :
    upd ∈ replacePositions ps upd := by
  have h2 := List.mem_map_of_mem (fun p => if p.symbol == upd.symbol then upd else p) hmem
  simpa [replacePositions, hsym] using h2

theorem updateExistingPosition_isSome (ex fill : Position)
    (h : ex.side = some "BUY" ∨ ex.side = some "SELL") :
    ∃ p, updateExistingPosition ex fill = some p := by
  rcases h with h | h
  · exact ⟨{ updateExistingBuyPosition ex fill with
      side := sideOfQty (updateExistingBuyPosition ex fill).quantity },
      by simp [updateExistingPosition, h]⟩
  · exact ⟨{ updateExistingSellPosition ex fill with
      side := sideOfQty (updateExistingSellPosition ex fill).quantity },
      by simp [updateExistingPosition, h]⟩

theorem updatePositionsFallible_true_ok (fill : Position) (o : Order)
    (s : ManagerState) (pf : Portfolio)
    (hpf : lookupA s.portfolios o.portfolio_id = some pf)
    (hwf : ∀ p ∈ pf.positions,
      p.side = Option.none ∨ p.side = some "BUY" ∨ p.side = some "SELL") :
    ∃ ps2, updatePositionsFallible true fill o s = Except.ok
      { s with
        ordersStore := s.ordersStore.filter (fun x => x.id != o.id),
        portfolios := setA s.portfolios o.portfolio_id
          { pf with positions := ps2,
                    orders := pf.orders.filter (fun x => x.id != o.id) } } := by
  have hnew : ∃ ps2, computeNewPositions pf.positions fill = some ps2 := by
    cases hfind : pf.positions.find? (fun p => p.symbol == fill.symbol) with
    | none => exact ⟨pf.positions ++ [fill], by simp [computeNewPositions, hfind]⟩
    | some ex =>
        have hex := List.mem_of_find?_eq_some hfind
        rcases hwf ex hex with h | h | h
        · exact ⟨pf.positions ++ [fill], by simp [computeNewPositions, hfind, h]⟩
        · obtain ⟨p, hp⟩ := updateExistingPosition_isSome ex fill (Or.inl h)
          exact ⟨replacePositions pf.positions p,
            by simp [computeNewPositions, hfind, h, hp]⟩
        · obtain ⟨p, hp⟩ := updateExistingPosition_isSome ex fill (Or.inr h)
          exact ⟨replacePositions pf.positions p,
            by simp [computeNewPositions, hfind, h, hp]⟩
  obtain ⟨ps2, hps2⟩ := hnew
  exact ⟨ps2, by simp [updatePositionsFallible, hpf, hps2]⟩

/-- Sanity check from the spec's section 8 worked example: a BUY position
of 10 valued 95.50 reduced by a SELL fill of 4 valued 38.40 becomes
quantity 6, value 57.10, side BUY. -/
theorem spec_example_partial_reduce :
    updateExistingPosition
      { symbol := "ABC", quantity := 10, side := some "BUY", conid := 1, value := (191 : ℚ) / 2 }
      { symbol := "ABC", quantity := 4, side := some "SELL", conid := 1, value := (192 : ℚ) / 5 } =
    some { symbol := "ABC", quantity := 6, side := some "BUY", conid := 1, value := (571 : ℚ) / 10 } := by
  simp [updateExistingPosition, updateExistingBuyPosition, sideOfQty]
  norm_num

/-- Sanity check from the spec's section 8 worked example: a BUY position
of 4 valued 38 fully netted by a SELL fill of 4 valued 40 is retained at
quantity 0, side none, with nonzero value -2. -/
theorem spec_example_netted_to_zero :
    updateExistingPosition
      { symbol := "ABC", quantity := 4, side := some "BUY", conid := 1, value := 38 }
      { symbol := "ABC", quantity := 4, side := some "SELL", conid := 1, value := 40 } =
    some { symbol := "ABC", quantity := 0, side := Option.none, conid := 1, value := -2 } := by
  simp [updateExistingPosition, updateExistingBuyPosition, sideOfQty]
  norm_num

/-- C2: when a fill is combined with an existing position of non-none
side for the same symbol, quantity and value follow the four-case netting
rule (same side adds, opposite side subtracts, in both the BUY-existing
and SELL-existing cases), the side is then recomputed from the sign of
the resulting quantity, and the updated position — including one netted
to quantity 0, whose side is none — replaces the old entry in the
portfolio's position list, which keeps its length (the entry is retained,
not removed). -/
theorem C2_netting_four_cases (ex fill p : Position)
    (hex : ex.side = some "BUY" ∨ ex.side = some "SELL")
    (hf : fill.side = some "BUY" ∨ fill.side = some "SELL")
    (hp : updateExistingPosition ex fill = some p) :
    p.quantity = (if ex.side = fill.side then ex.quantity + fill.quantity
      else ex.quantity - fill.quantity) ∧
    p.value = (if ex.side = fill.side then ex.value + fill.value
      else ex.value - fill.value) ∧
    p.side = (if p.quantity < 0 then some "SELL"
      else if 0 < p.quantity then some "BUY" else Option.none) ∧
    p.symbol = ex.symbol ∧
    (∀ ps : List Position, ex ∈ ps →
      p ∈ replacePositions ps p ∧ (replacePositions ps p).length = ps.length) := by
  rcases hex with hex | hex <;> rcases hf with hf | hf <;>
    (simp [updateExistingPosition, updateExistingBuyPosition,
       updateExistingSellPosition, hex, hf] at hp
     subst hp
     exact ⟨by simp [hex, hf], by simp [hex, hf], by simp [sideOfQty], rfl,
       fun ps hmem => ⟨mem_replacePositions ps _ ex hmem rfl,
         length_replacePositions ps _⟩⟩)

/-- Witness for C2: a long position of 5 netted by a SELL fill of 5 goes
to quantity 0 with side none and is retained when replacing into a
one-entry position list. -/
theorem C2_netting_four_cases_witness :
    updateExistingPosition ⟨"ABC", 5, some "BUY", 1, 50⟩ ⟨"ABC", 5, some "SELL", 1, 50⟩ =
      some ⟨"ABC", 0, Option.none, 1, 0⟩ ∧
    (⟨"ABC", 0, Option.none, 1, 0⟩ : Position).side =
      (if ((⟨"ABC", 0, Option.none, 1, 0⟩ : Position).quantity) < 0 then some "SELL"
       else if 0 < ((⟨"ABC", 0, Option.none, 1, 0⟩ : Position).quantity) then some "BUY"
       else Option.none) ∧
    ((⟨"ABC", 0, Option.none, 1, 0⟩ : Position) ∈
      replacePositions [⟨"ABC", 5, some "BUY", 1, 50⟩] ⟨"ABC", 0, Option.none, 1, 0⟩ ∧
     (replacePositions [⟨"ABC", 5, some "BUY", 1, 50⟩] ⟨"ABC", 0, Option.none, 1, 0⟩).length =
      ([⟨"ABC", 5, some "BUY", 1, 50⟩] : List Position).length) := by
  have hp : updateExistingPosition ⟨"ABC", 5, some "BUY", 1, 50⟩
      ⟨"ABC", 5, some "SELL", 1, 50⟩ = some ⟨"ABC", 0, Option.none, 1, 0⟩ := by
    simp [updateExistingPosition, updateExistingBuyPosition, sideOfQty]
  have h := C2_netting_four_cases ⟨"ABC", 5, some "BUY", 1, 50⟩
    ⟨"ABC", 5, some "SELL", 1, 50⟩ ⟨"ABC", 0, Option.none, 1, 0⟩
    (Or.inl rfl) (Or.inr rfl) hp
  exact ⟨hp, h.2.2.1, h.2.2.2.2 [⟨"ABC", 5, some "BUY", 1, 50⟩] (by simp)⟩

/-- C1 counterexample: the very first fill that creates a position can
violate the side-sign mapping. Processing a MARKET SELL order for 10
shares (bid 9, ask 10) against an empty portfolio leaves a reachable
position with side "SELL" and quantity 10, while the mapping would
require side BUY for a positive quantity (`sideOfQty 10 = some "BUY"`). -/
theorem C1_counterexample :
    (match processOrderStep true
        ⟨"o1", "P", "ABC", "MKT", "SELL", 10, 0⟩
        ⟨[⟨"o1", "P", "ABC", "MKT", "SELL", 10, 0⟩],
          [("P", ⟨"P", [⟨"o1", "P", "ABC", "MKT", "SELL", 10, 0⟩], []⟩)],
          [("ABC", 1)], [("ABC", ⟨9, 10⟩)]⟩ with
      | Except.ok s2 => (lookupA s2.portfolios "P").map (fun pf => pf.positions)
      | Except.error _ => Option.none) =
      some [⟨"ABC", 10, some "SELL", 1, 90⟩] ∧
    sideOfQty 10 = some "BUY" := by
  constructor
  · simp [processOrderStep, processOrderSingle, processMarketOrder, createPosition,
      updatePositionsFallible, computeNewPositions, lookupA, setA]
    norm_num
  · norm_num [sideOfQty]

/-- C1 amended: the side-sign mapping (negative SELL, positive BUY, zero
none) holds for every position written by the netting update
`__update_existing_position`, but a newly created position stores the
order's side with quantity equal to the (positive) order quantity, so a
position created by a SELL fill carries side "SELL" with positive
quantity, violating the mapping until the next netting update rewrites
it. -/
theorem C1_side_derivation_amended (ex fill p : Position) (o : Order) (fp : ℚ)
    (cm : List (String × Int)) (q : Position)
    (hupd : updateExistingPosition ex fill = some p)
    (hcreate : createPosition o fp cm = some q) :
    p.side = sideOfQty p.quantity ∧ q.side = some o.side ∧ q.quantity = o.quantity := by
  refine ⟨?_, ?_⟩
  · by_cases h1 : ex.side = some "BUY"
    · simp [updateExistingPosition, h1] at hupd
      subst hupd
      rfl
    · by_cases h2 : ex.side = some "SELL"
      · simp [updateExistingPosition, h1, h2] at hupd
        subst hupd
        rfl
      · simp [updateExistingPosition, h1, h2] at hupd
  · cases hcm : lookupA cm o.symbol with
    | none => simp [createPosition, hcm] at hcreate
    | some cid =>
        simp [createPosition, hcm] at hcreate
        subst hcreate
        exact ⟨rfl, rfl⟩

/-- Witness for C1 amended: a netting update of a long position of 5 by a
SELL fill of 2 lands on side BUY matching sign 3, and creating a position
from a SELL order of 10 stores side "SELL" and quantity 10. -/
theorem C1_side_derivation_amended_witness :
    (⟨"ABC", 3, some "BUY", 1, 30⟩ : Position).side =
      sideOfQty (⟨"ABC", 3, some "BUY", 1, 30⟩ : Position).quantity ∧
    (⟨"ABC", 10, some "SELL", 1, 90⟩ : Position).side =
      some (⟨"o1", "P", "ABC", "MKT", "SELL", 10, 0⟩ : Order).side ∧
    (⟨"ABC", 10, some "SELL", 1, 90⟩ : Position).quantity =
      (⟨"o1", "P", "ABC", "MKT", "SELL", 10, 0⟩ : Order).quantity := by
  exact C1_side_derivation_amended ⟨"ABC", 5, some "BUY", 1, 50⟩
    ⟨"ABC", 2, some "SELL", 1, 20⟩ ⟨"ABC", 3, some "BUY", 1, 30⟩
    ⟨"o1", "P", "ABC", "MKT", "SELL", 10, 0⟩ 9 [("ABC", 1)]
    ⟨"ABC", 10, some "SELL", 1, 90⟩
    (by simp [updateExistingPosition, updateExistingBuyPosition, sideOfQty]; norm_num)
    (by simp [createPosition, lookupA]; norm_num)

theorem filter_id_ne (l : List Order) (oid : String) (x : Order)
    (hx : x ∈ l.filter (fun y => y.id != oid)) : x.id ≠ oid := by
  have h2 := (List.mem_filter.mp hx).2
  simpa using h2

theorem updatePositions_removes_order (fill : Position) (o : Order)
    (s : ManagerState) (pf : Portfolio)
    (hpf : lookupA s.portfolios o.portfolio_id = some pf)
    (hwf : ∀ p ∈ pf.positions,
      p.side = Option.none ∨ p.side = some "BUY" ∨ p.side = some "SELL") :
    ∃ s2 pf2, updatePositionsFallible true fill o s = Except.ok s2 ∧
      (∀ x ∈ s2.ordersStore, x.id ≠ o.id) ∧
      lookupA s2.portfolios o.portfolio_id = some pf2 ∧
      (∀ x ∈ pf2.orders, x.id ≠ o.id) := by
  obtain ⟨ps2, hok⟩ := updatePositionsFallible_true_ok fill o s pf hpf hwf
  refine ⟨_, _, hok, ?_, lookupA_setA_self _ _ _, ?_⟩
  · intro x hx
    exact filter_id_ne _ _ _ hx
  · intro x hx
    exact filter_id_ne _ _ _ hx

/-- C4: a MARKET order whose symbol has a quote this cycle produces a
fill in the same cycle: the processing step reduces to the ledger update
with a fill whose price is the ask for a BUY and the bid for a SELL, and
whose value is quantity times that fill price. -/
theorem C4_market_order_fill (writeOk : Bool) (o : Order) (s : ManagerState)
    (q : Quote) (cid : Int)
    (hq : lookupA s.symbolPriceMap o.symbol = some q)
    (ht : o.order_type = "MKT")
    (hc : lookupA s.symbolConidMap o.symbol = some cid) :
    ∃ fill : Position,
      createPosition o (if o.side = "BUY" then q.ask else q.bid) s.symbolConidMap =
        some fill ∧
      processOrderStep writeOk o s = updatePositionsFallible writeOk fill o s ∧
      fill.symbol = o.symbol ∧ fill.quantity = o.quantity ∧ fill.side = some o.side ∧
      fill.value = o.quantity * (if o.side = "BUY" then q.ask else q.bid) := by
  refine ⟨⟨o.symbol, o.quantity, some o.side, cid,
    o.quantity * (if o.side = "BUY" then q.ask else q.bid)⟩, ?_, ?_, rfl, rfl, rfl, rfl⟩
  · simp [createPosition, hc]
  · simp [processOrderStep, processOrderSingle, processMarketOrder, hq, ht,
      createPosition, hc]

/-- Witness for C4: a MARKET BUY order for 5 shares with quote bid 9 and
ask 10 reduces to a ledger update with a fill at price 10 and value 50. -/
theorem C4_market_order_fill_witness :
    ∃ fill : Position,
      createPosition ⟨"o1", "P", "ABC", "MKT", "BUY", 5, 0⟩
        (if (⟨"o1", "P", "ABC", "MKT", "BUY", 5, 0⟩ : Order).side = "BUY"
         then (⟨9, 10⟩ : Quote).ask else (⟨9, 10⟩ : Quote).bid) [("ABC", 1)] = some fill ∧
      processOrderStep true ⟨"o1", "P", "ABC", "MKT", "BUY", 5, 0⟩
          ⟨[⟨"o1", "P", "ABC", "MKT", "BUY", 5, 0⟩],
            [("P", ⟨"P", [⟨"o1", "P", "ABC", "MKT", "BUY", 5, 0⟩], []⟩)],
            [("ABC", 1)], [("ABC", ⟨9, 10⟩)]⟩ =
        updatePositionsFallible true fill ⟨"o1", "P", "ABC", "MKT", "BUY", 5, 0⟩
          ⟨[⟨"o1", "P", "ABC", "MKT", "BUY", 5, 0⟩],
            [("P", ⟨"P", [⟨"o1", "P", "ABC", "MKT", "BUY", 5, 0⟩], []⟩)],
            [("ABC", 1)], [("ABC", ⟨9, 10⟩)]⟩ ∧
      fill.symbol = "ABC" ∧ fill.quantity = 5 ∧ fill.side = some "BUY" ∧
      fill.value = 5 * (if (⟨"o1", "P", "ABC", "MKT", "BUY", 5, 0⟩ : Order).side = "BUY"
        then (⟨9, 10⟩ : Quote).ask else (⟨9, 10⟩ : Quote).bid) := by
  exact C4_market_order_fill true ⟨"o1", "P", "ABC", "MKT", "BUY", 5, 0⟩
    ⟨[⟨"o1", "P", "ABC", "MKT", "BUY", 5, 0⟩],
      [("P", ⟨"P", [⟨"o1", "P", "ABC", "MKT", "BUY", 5, 0⟩], []⟩)],
      [("ABC", 1)], [("ABC", ⟨9, 10⟩)]⟩ ⟨9, 10⟩ 1
    (by simp [lookupA]) rfl (by simp [lookupA])

/-- C3: a LIMIT order whose symbol has a quote fills exactly when the
quote satisfies the limit — a BUY when ask is at most the limit price, at
price ask; a SELL when bid is at least the limit price, at price bid —
and otherwise the processing step returns the state unchanged (no fill,
no state change this cycle). -/
theorem C3_limit_order_fill (writeOk : Bool) (o : Order) (s : ManagerState)
    (q : Quote) (cid : Int)
    (hq : lookupA s.symbolPriceMap o.symbol = some q)
    (ht : o.order_type = "LMT")
    (hc : lookupA s.symbolConidMap o.symbol = some cid) :
    (o.side = "BUY" →
      (q.ask ≤ o.limit_price →
        ∃ fill : Position,
          processOrderStep writeOk o s = updatePositionsFallible writeOk fill o s ∧
          fill.symbol = o.symbol ∧ fill.quantity = o.quantity ∧
          fill.side = some "BUY" ∧ fill.value = o.quantity * q.ask) ∧
      (o.limit_price < q.ask → processOrderStep writeOk o s = Except.ok s)) ∧
    (o.side = "SELL" →
      (o.limit_price ≤ q.bid →
        ∃ fill : Position,
          processOrderStep writeOk o s = updatePositionsFallible writeOk fill o s ∧
          fill.symbol = o.symbol ∧ fill.quantity = o.quantity ∧
          fill.side = some "SELL" ∧ fill.value = o.quantity * q.bid) ∧
      (q.bid < o.limit_price → processOrderStep writeOk o s = Except.ok s)) := by
  constructor
  · intro hside
    constructor
    · intro hle
      refine ⟨⟨o.symbol, o.quantity, some "BUY", cid, o.quantity * q.ask⟩, ?_, rfl, rfl, rfl, rfl⟩
      simp [processOrderStep, processOrderSingle, processLimitOrder, hq, ht, hside,
        createPosition, hc, not_lt.mpr hle]
    · intro hgt
      simp [processOrderStep, processOrderSingle, processLimitOrder, hq, ht, hside, hgt]
  · intro hside
    constructor
    · intro hle
      refine ⟨⟨o.symbol, o.quantity, some "SELL", cid, o.quantity * q.bid⟩, ?_, rfl, rfl, rfl, rfl⟩
      simp [processOrderStep, processOrderSingle, processLimitOrder, hq, ht, hside,
        createPosition, hc, not_lt.mpr hle]
    · intro hlt
      simp [processOrderStep, processOrderSingle, processLimitOrder, hq, ht, hside, hlt]

/-- Witness for C3: a LIMIT BUY at limit 10 with ask 10 fills at the ask;
the same state shows the hypotheses are satisfiable. -/
theorem C3_limit_order_fill_witness :
    ∃ fill : Position,
      processOrderStep true ⟨"o1", "P", "ABC", "LMT", "BUY", 5, 10⟩
          ⟨[⟨"o1", "P", "ABC", "LMT", "BUY", 5, 10⟩],
            [("P", ⟨"P", [⟨"o1", "P", "ABC", "LMT", "BUY", 5, 10⟩], []⟩)],
            [("ABC", 1)], [("ABC", ⟨9, 10⟩)]⟩ =
        updatePositionsFallible true fill ⟨"o1", "P", "ABC", "LMT", "BUY", 5, 10⟩
          ⟨[⟨"o1", "P", "ABC", "LMT", "BUY", 5, 10⟩],
            [("P", ⟨"P", [⟨"o1", "P", "ABC", "LMT", "BUY", 5, 10⟩], []⟩)],
            [("ABC", 1)], [("ABC", ⟨9, 10⟩)]⟩ ∧
      fill.symbol = "ABC" ∧ fill.quantity = 5 ∧ fill.side = some "BUY" ∧
      fill.value = 5 * (⟨9, 10⟩ : Quote).ask := by
  exact ((C3_limit_order_fill true ⟨"o1", "P", "ABC", "LMT", "BUY", 5, 10⟩
    ⟨[⟨"o1", "P", "ABC", "LMT", "BUY", 5, 10⟩],
      [("P", ⟨"P", [⟨"o1", "P", "ABC", "LMT", "BUY", 5, 10⟩], []⟩)],
      [("ABC", 1)], [("ABC", ⟨9, 10⟩)]⟩ ⟨9, 10⟩ 1
    (by simp [lookupA]) rfl (by simp [lookupA])).1 rfl).1 (by norm_num)

/-- C6: for every order processed in a cycle whose portfolio exists, is
well-formed, and whose symbol resolves to a conid: if the order fills,
it is afterwards absent from the pending-order store and from its
portfolio's order-reference list; if it does not fill, the processing
step returns the state completely unchanged. -/
theorem C6_fill_removes_order_nofill_frame (o : Order) (s : ManagerState)
    (pf : Portfolio)
    (hpf : lookupA s.portfolios o.portfolio_id = some pf)
    (hcid : ∃ cid, lookupA s.symbolConidMap o.symbol = some cid)
    (hwf : ∀ p ∈ pf.positions,
      p.side = Option.none ∨ p.side = some "BUY" ∨ p.side = some "SELL") :
    (orderFills o s = true →
      ∃ s2 pf2, processOrderStep true o s = Except.ok s2 ∧
        (∀ x ∈ s2.ordersStore, x.id ≠ o.id) ∧
        lookupA s2.portfolios o.portfolio_id = some pf2 ∧
        (∀ x ∈ pf2.orders, x.id ≠ o.id)) ∧
    (orderFills o s = false → processOrderStep true o s = Except.ok s) := by
  obtain ⟨cid, hc⟩ := hcid
  cases hq : lookupA s.symbolPriceMap o.symbol with
  | none =>
      constructor
      · intro hfill
        simp [orderFills, hq] at hfill
      · intro _
        simp [processOrderStep, hq]
  | some q =>
      constructor
      · intro hfill
        by_cases ht : o.order_type = "MKT"
        · have hstep : processOrderStep true o s = updatePositionsFallible true
              ⟨o.symbol, o.quantity, some o.side, cid,
                o.quantity * (if o.side = "BUY" then q.ask else q.bid)⟩ o s := by
            simp [processOrderStep, processOrderSingle, processMarketOrder, hq, ht,
              createPosition, hc]
          rw [hstep]
          exact updatePositions_removes_order _ o s pf hpf hwf
        · by_cases htL : o.order_type = "LMT"
          · by_cases hA : o.side = "BUY" ∧ q.ask > o.limit_price
            · exfalso
              simp [orderFills, hq, htL, hA] at hfill
            · by_cases hB : o.side = "SELL" ∧ q.bid < o.limit_price
              · exfalso
                simp [orderFills, hq, htL, hA, hB] at hfill
              · have hstep : processOrderStep true o s = updatePositionsFallible true
                    ⟨o.symbol, o.quantity, some o.side, cid,
                      o.quantity * (if o.side = "BUY" then q.ask else q.bid)⟩ o s := by
                  simp [processOrderStep, processOrderSingle, processLimitOrder, hq,
                    ht, htL, hA, hB, createPosition, hc]
                rw [hstep]
                exact updatePositions_removes_order _ o s pf hpf hwf
          · have hstep : processOrderStep true o s = updatePositionsFallible true
                ⟨o.symbol, o.quantity, some o.side, cid,
                  o.quantity * (if o.side = "BUY" then q.ask else q.bid)⟩ o s := by
              simp [processOrderStep, processOrderSingle, processMarketOrder, hq, ht,
                htL, createPosition, hc]
            rw [hstep]
            exact updatePositions_removes_order _ o s pf hpf hwf
      · intro hnofill
        by_cases htL : o.order_type = "LMT"
        · by_cases hA : o.side = "BUY" ∧ q.ask > o.limit_price
          · simp [processOrderStep, processOrderSingle, processLimitOrder, hq, htL, hA]
          · by_cases hB : o.side = "SELL" ∧ q.bid < o.limit_price
            · simp [processOrderStep, processOrderSingle, processLimitOrder, hq, htL,
                hA, hB]
            · exfalso
              simp [orderFills, hq, htL, hA, hB] at hnofill
        · exfalso
          simp [orderFills, hq, htL] at hnofill

/-- Witness for C6: a MARKET BUY order in a one-order store fills, and is
afterwards absent from the store and the portfolio's order list. -/
theorem C6_fill_removes_order_nofill_frame_witness :
    ∃ s2 pf2,
      processOrderStep true ⟨"o1", "P", "ABC", "MKT", "BUY", 5, 0⟩
          ⟨[⟨"o1", "P", "ABC", "MKT", "BUY", 5, 0⟩],
            [("P", ⟨"P", [⟨"o1", "P", "ABC", "MKT", "BUY", 5, 0⟩], []⟩)],
            [("ABC", 1)], [("ABC", ⟨9, 10⟩)]⟩ = Except.ok s2 ∧
      (∀ x ∈ s2.ordersStore, x.id ≠ "o1") ∧
      lookupA s2.portfolios "P" = some pf2 ∧
      (∀ x ∈ pf2.orders, x.id ≠ "o1") := by
  exact (C6_fill_removes_order_nofill_frame ⟨"o1", "P", "ABC", "MKT", "BUY", 5, 0⟩
    ⟨[⟨"o1", "P", "ABC", "MKT", "BUY", 5, 0⟩],
      [("P", ⟨"P", [⟨"o1", "P", "ABC", "MKT", "BUY", 5, 0⟩], []⟩)],
      [("ABC", 1)], [("ABC", ⟨9, 10⟩)]⟩
    ⟨"P", [⟨"o1", "P", "ABC", "MKT", "BUY", 5, 0⟩], []⟩
    (by simp [lookupA]) ⟨1, by simp [lookupA]⟩ (by simp)).1
    (by simp [orderFills, lookupA])

/-- C5 (code evidence): the order is deleted from the pending store
before the portfolio write. With a portfolio holding no position, a BUY
fill of 5 whose portfolio write fails ends in the error state whose
pending-order store is already empty while the portfolio document is
unchanged: the order is lost instead of remaining pending for retry. -/
theorem C5_write_failure_loses_order :
    updatePositionsFallible false ⟨"ABC", 5, some "BUY", 1, 50⟩
        ⟨"o1", "P", "ABC", "MKT", "BUY", 5, 0⟩
        ⟨[⟨"o1", "P", "ABC", "MKT", "BUY", 5, 0⟩],
          [("P", ⟨"P", [⟨"o1", "P", "ABC", "MKT", "BUY", 5, 0⟩], []⟩)],
          [("ABC", 1)], [("ABC", ⟨9, 10⟩)]⟩ =
      Except.error
        ⟨[], [("P", ⟨"P", [⟨"o1", "P", "ABC", "MKT", "BUY", 5, 0⟩], []⟩)],
          [("ABC", 1)], [("ABC", ⟨9, 10⟩)]⟩ := by
  simp [updatePositionsFallible, computeNewPositions, lookupA]

/-- C7 counterexample: the BUY-then-SELL round trip does not restore a
pre-existing SELL-side position even with identical fill values. Starting
from position (ABC, quantity 5, side SELL, value 50), a MARKET BUY of 2
then a MARKET SELL of 2 at bid = ask = 10 (both fills valued 20) ends at
(ABC, quantity 1, side BUY, value 10), not the original position: the
stored SELL position counts positive quantity, so the BUY fill subtracts
and the intermediate side flips to BUY, making the SELL fill subtract
again. -/
theorem C7_counterexample :
    (match processOrders true
        [⟨"b1", "P", "ABC", "MKT", "BUY", 2, 0⟩,
         ⟨"s1", "P", "ABC", "MKT", "SELL", 2, 0⟩]
        ⟨[⟨"b1", "P", "ABC", "MKT", "BUY", 2, 0⟩,
          ⟨"s1", "P", "ABC", "MKT", "SELL", 2, 0⟩],
          [("P", ⟨"P", [⟨"b1", "P", "ABC", "MKT", "BUY", 2, 0⟩,
            ⟨"s1", "P", "ABC", "MKT", "SELL", 2, 0⟩],
            [⟨"ABC", 5, some "SELL", 1, 50⟩]⟩)],
          [("ABC", 1)], [("ABC", ⟨10, 10⟩)]⟩ with
      | Except.ok s2 => (lookupA s2.portfolios "P").map (fun pf => pf.positions)
      | Except.error _ => Option.none) =
      some [⟨"ABC", 1, some "BUY", 1, 10⟩] ∧
    (⟨"ABC", 1, some "BUY", 1, 10⟩ : Position) ≠ ⟨"ABC", 5, some "SELL", 1, 50⟩ := by
  have h1 : processOrderStep true ⟨"b1", "P", "ABC", "MKT", "BUY", 2, 0⟩
      ⟨[⟨"b1", "P", "ABC", "MKT", "BUY", 2, 0⟩,
        ⟨"s1", "P", "ABC", "MKT", "SELL", 2, 0⟩],
        [("P", ⟨"P", [⟨"b1", "P", "ABC", "MKT", "BUY", 2, 0⟩,
          ⟨"s1", "P", "ABC", "MKT", "SELL", 2, 0⟩],
          [⟨"ABC", 5, some "SELL", 1, 50⟩]⟩)],
        [("ABC", 1)], [("ABC", ⟨10, 10⟩)]⟩ =
      Except.ok
        ⟨[⟨"s1", "P", "ABC", "MKT", "SELL", 2, 0⟩],
          [("P", ⟨"P", [⟨"s1", "P", "ABC", "MKT", "SELL", 2, 0⟩],
            [⟨"ABC", 3, some "BUY", 1, 30⟩]⟩)],
          [("ABC", 1)], [("ABC", ⟨10, 10⟩)]⟩ := by
    simp [processOrderStep, processOrderSingle, processMarketOrder, createPosition,
      updatePositionsFallible, computeNewPositions, replacePositions,
      updateExistingPosition, updateExistingSellPosition, sideOfQty, lookupA, setA]
    norm_num
  have h2 : processOrderStep true ⟨"s1", "P", "ABC", "MKT", "SELL", 2, 0⟩
      ⟨[⟨"s1", "P", "ABC", "MKT", "SELL", 2, 0⟩],
        [("P", ⟨"P", [⟨"s1", "P", "ABC", "MKT", "SELL", 2, 0⟩],
          [⟨"ABC", 3, some "BUY", 1, 30⟩]⟩)],
        [("ABC", 1)], [("ABC", ⟨10, 10⟩)]⟩ =
      Except.ok
        ⟨[], [("P", ⟨"P", [], [⟨"ABC", 1, some "BUY", 1, 10⟩]⟩)],
          [("ABC", 1)], [("ABC", ⟨10, 10⟩)]⟩ := by
    simp [processOrderStep, processOrderSingle, processMarketOrder, createPosition,
      updatePositionsFallible, computeNewPositions, replacePositions,
      updateExistingPosition, updateExistingBuyPosition, sideOfQty, lookupA, setA]
    norm_num
  constructor
  · simp [processOrders, h1, h2, lookupA]
  · simp

/-- C7 amended: for a pre-existing position with side BUY (whose stored
quantity is positive in every reachable state), a BUY fill of quantity Q
followed by a SELL fill of quantity Q restores the quantity, side, symbol
and conid exactly; the value ends at the original value plus the BUY fill
value minus the SELL fill value, so it is restored exactly when the two
fill values coincide. For SELL-side positions the round trip fails in
general (see the counterexample). -/
theorem C7_netting_round_trip_amended (ex : Position) (Q V V2 : ℚ)
    (sym sym2 : String) (cid cid2 : Int)
    (hside : ex.side = some "BUY") (hq : 0 < ex.quantity) (hQ : 0 < Q) :
    ∃ p1, updateExistingPosition ex ⟨sym, Q, some "BUY", cid, V⟩ = some p1 ∧
      updateExistingPosition p1 ⟨sym2, Q, some "SELL", cid2, V2⟩ =
        some { ex with value := ex.value + V - V2 } ∧
      (V2 = V → ({ ex with value := ex.value + V - V2 } : Position) = ex) := by
  have hpos : 0 < ex.quantity + Q := add_pos hq hQ
  have hside1 : sideOfQty (ex.quantity + Q) = some "BUY" := by
    unfold sideOfQty
    rw [if_neg (not_lt.mpr hpos.le), if_pos hpos]
  have hsq : sideOfQty ex.quantity = some "BUY" := by
    unfold sideOfQty
    rw [if_neg (not_lt.mpr hq.le), if_pos hq]
  refine ⟨⟨ex.symbol, ex.quantity + Q, some "BUY", ex.conid, ex.value + V⟩, ?_, ?_, ?_⟩
  · simp [updateExistingPosition, updateExistingBuyPosition, hside, hside1]
  · have hQQ : ex.quantity + Q - Q = ex.quantity := by ring
    simp [updateExistingPosition, updateExistingBuyPosition, hQQ, hsq, hside]
  · intro hV
    subst hV
    have hval : ex.value + V2 - V2 = ex.value := by ring
    rw [hval]

theorem computeNewPositions_nodup (positions : List Position) (fill : Position)
    (ps : List Position)
    (hnodup : (positions.map Position.symbol).Nodup)
    (hside : ∀ p ∈ positions, p.symbol = fill.symbol →
      (p.side = some "BUY" ∨ p.side = some "SELL"))
    (h : computeNewPositions positions fill = some ps) :
    (ps.map Position.symbol).Nodup := by
  cases hfind : positions.find? (fun p => p.symbol == fill.symbol) with
  | none =>
      have hnotin : ∀ x ∈ positions, x.symbol ≠ fill.symbol := by
        intro x hx
        have hfx := List.find?_eq_none.mp hfind x hx
        simpa using hfx
      simp only [computeNewPositions, hfind, Option.some.injEq] at h
      subst h
      rw [List.map_append]
      refine List.Nodup.append hnodup (List.nodup_singleton _) ?_
      intro a ha hb
      simp only [List.map_cons, List.map_nil, List.mem_singleton] at hb
      subst hb
      obtain ⟨x, hx, hxs⟩ := List.mem_map.mp ha
      exact hnotin x hx hxs
  | some ex =>
      have hex := List.mem_of_find?_eq_some hfind
      have hsym : ex.symbol = fill.symbol := by
        have hfs := List.find?_some hfind
        simpa using hfs
      rcases hside ex hex hsym with hbs | hbs
      · obtain ⟨upd, hupd⟩ := updateExistingPosition_isSome ex fill (Or.inl hbs)
        simp [computeNewPositions, hfind, hbs, hupd] at h
        subst h
        rw [replacePositions_map_symbol]
        exact hnodup
      · obtain ⟨upd, hupd⟩ := updateExistingPosition_isSome ex fill (Or.inr hbs)
        simp [computeNewPositions, hfind, hbs, hupd] at h
        subst h
        rw [replacePositions_map_symbol]
        exact hnodup

/-- C9 counterexample: position-per-symbol uniqueness is violated once a
position has been netted to zero. From an empty portfolio, a MARKET BUY
of 5, a MARKET SELL of 5 (netting ABC to quantity 0, side none), and a
second MARKET BUY of 5 (all at bid = ask = 10) leave the portfolio with
two position entries for symbol ABC: the guard `side != None` makes the
third fill append a fresh entry instead of updating the netted one. -/
theorem C9_counterexample :
    (match processOrders true
        [⟨"o1", "P", "ABC", "MKT", "BUY", 5, 0⟩,
         ⟨"o2", "P", "ABC", "MKT", "SELL", 5, 0⟩,
         ⟨"o3", "P", "ABC", "MKT", "BUY", 5, 0⟩]
        ⟨[⟨"o1", "P", "ABC", "MKT", "BUY", 5, 0⟩,
          ⟨"o2", "P", "ABC", "MKT", "SELL", 5, 0⟩,
          ⟨"o3", "P", "ABC", "MKT", "BUY", 5, 0⟩],
          [("P", ⟨"P", [⟨"o1", "P", "ABC", "MKT", "BUY", 5, 0⟩,
            ⟨"o2", "P", "ABC", "MKT", "SELL", 5, 0⟩,
            ⟨"o3", "P", "ABC", "MKT", "BUY", 5, 0⟩], []⟩)],
          [("ABC", 1)], [("ABC", ⟨10, 10⟩)]⟩ with
      | Except.ok s2 =>
          (lookupA s2.portfolios "P").map (fun pf => pf.positions.map Position.symbol)
      | Except.error _ => Option.none) = some ["ABC", "ABC"] := by
  have h1 : processOrderStep true ⟨"o1", "P", "ABC", "MKT", "BUY", 5, 0⟩
      ⟨[⟨"o1", "P", "ABC", "MKT", "BUY", 5, 0⟩,
        ⟨"o2", "P", "ABC", "MKT", "SELL", 5, 0⟩,
        ⟨"o3", "P", "ABC", "MKT", "BUY", 5, 0⟩],
        [("P", ⟨"P", [⟨"o1", "P", "ABC", "MKT", "BUY", 5, 0⟩,
          ⟨"o2", "P", "ABC", "MKT", "SELL", 5, 0⟩,
          ⟨"o3", "P", "ABC", "MKT", "BUY", 5, 0⟩], []⟩)],
        [("ABC", 1)], [("ABC", ⟨10, 10⟩)]⟩ =
      Except.ok
        ⟨[⟨"o2", "P", "ABC", "MKT", "SELL", 5, 0⟩,
          ⟨"o3", "P", "ABC", "MKT", "BUY", 5, 0⟩],
          [("P", ⟨"P", [⟨"o2", "P", "ABC", "MKT", "SELL", 5, 0⟩,
            ⟨"o3", "P", "ABC", "MKT", "BUY", 5, 0⟩],
            [⟨"ABC", 5, some "BUY", 1, 50⟩]⟩)],
          [("ABC", 1)], [("ABC", ⟨10, 10⟩)]⟩ := by
    simp [processOrderStep, processOrderSingle, processMarketOrder, createPosition,
      updatePositionsFallible, computeNewPositions, replacePositions,
      updateExistingPosition, updateExistingBuyPosition, sideOfQty, lookupA, setA]
    norm_num
  have h2 : processOrderStep true ⟨"o2", "P", "ABC", "MKT", "SELL", 5, 0⟩
      ⟨[⟨"o2", "P", "ABC", "MKT", "SELL", 5, 0⟩,
        ⟨"o3", "P", "ABC", "MKT", "BUY", 5, 0⟩],
        [("P", ⟨"P", [⟨"o2", "P", "ABC", "MKT", "SELL", 5, 0⟩,
          ⟨"o3", "P", "ABC", "MKT", "BUY", 5, 0⟩],
          [⟨"ABC", 5, some "BUY", 1, 50⟩]⟩)],
        [("ABC", 1)], [("ABC", ⟨10, 10⟩)]⟩ =
      Except.ok
        ⟨[⟨"o3", "P", "ABC", "MKT", "BUY", 5, 0⟩],
          [("P", ⟨"P", [⟨"o3", "P", "ABC", "MKT", "BUY", 5, 0⟩],
            [⟨"ABC", 0, Option.none, 1, 0⟩]⟩)],
          [("ABC", 1)], [("ABC", ⟨10, 10⟩)]⟩ := by
    simp [processOrderStep, processOrderSingle, processMarketOrder, createPosition,
      updatePositionsFallible, computeNewPositions, replacePositions,
      updateExistingPosition, updateExistingBuyPosition, sideOfQty, lookupA, setA]
    norm_num
  have h3 : processOrderStep true ⟨"o3", "P", "ABC", "MKT", "BUY", 5, 0⟩
      ⟨[⟨"o3", "P", "ABC", "MKT", "BUY", 5, 0⟩],
        [("P", ⟨"P", [⟨"o3", "P", "ABC", "MKT", "BUY", 5, 0⟩],
          [⟨"ABC", 0, Option.none, 1, 0⟩]⟩)],
        [("ABC", 1)], [("ABC", ⟨10, 10⟩)]⟩ =
      Except.ok
        ⟨[], [("P", ⟨"P", [],
          [⟨"ABC", 0, Option.none, 1, 0⟩, ⟨"ABC", 5, some "BUY", 1, 50⟩]⟩)],
          [("ABC", 1)], [("ABC", ⟨10, 10⟩)]⟩ := by
    simp [processOrderStep, processOrderSingle, processMarketOrder, createPosition,
      updatePositionsFallible, computeNewPositions, replacePositions,
      updateExistingPosition, updateExistingBuyPosition, sideOfQty, lookupA, setA]
    norm_num
  simp [processOrders, h1, h2, h3, lookupA]

/-- C9 amended: a single ledger fill preserves at-most-one-entry-per-
symbol provided every existing entry for the fill's symbol has a
non-none side: an existing BUY or SELL entry is replaced in place
(leaving the symbol multiset unchanged), and a fill for an absent symbol
appends a single new entry. Once an entry for the symbol has side none
(netted to zero), the update appends a second entry for that symbol
instead, as the counterexample shows. -/
theorem C9_unique_symbols_amended (fill : Position) (o : Order)
    (s s2 : ManagerState) (pf : Portfolio)
    (hpf : lookupA s.portfolios o.portfolio_id = some pf)
    (hnodup : (pf.positions.map Position.symbol).Nodup)
    (hside : ∀ p ∈ pf.positions, p.symbol = fill.symbol →
      (p.side = some "BUY" ∨ p.side = some "SELL"))
    (hok : updatePositionsFallible true fill o s = Except.ok s2) :
    ∃ pf2, lookupA s2.portfolios o.portfolio_id = some pf2 ∧
      (pf2.positions.map Position.symbol).Nodup := by
  cases hcnp : computeNewPositions pf.positions fill with
  | none => simp [updatePositionsFallible, hpf, hcnp] at hok
  | some ps =>
      simp [updatePositionsFallible, hpf, hcnp] at hok
      subst hok
      exact ⟨_, lookupA_setA_self _ _ _,
        computeNewPositions_nodup pf.positions fill ps hnodup hside hcnp⟩

/-- Witness for C9 amended: netting a SELL fill of 2 into a portfolio
with a single BUY position of 5 in ABC keeps the position list at one
entry per symbol. -/
theorem C9_unique_symbols_amended_witness :
    ∃ pf2, lookupA
        (⟨[], [("P", ⟨"P", [], [⟨"ABC", 3, some "BUY", 1, 30⟩]⟩)],
          [("ABC", 1)], [("ABC", ⟨10, 10⟩)]⟩ : ManagerState).portfolios "P" =
        some pf2 ∧
      (pf2.positions.map Position.symbol).Nodup := by
  exact C9_unique_symbols_amended ⟨"ABC", 2, some "SELL", 1, 20⟩
    ⟨"o9", "P", "ABC", "MKT", "SELL", 2, 0⟩
    ⟨[⟨"o9", "P", "ABC", "MKT", "SELL", 2, 0⟩],
      [("P", ⟨"P", [⟨"o9", "P", "ABC", "MKT", "SELL", 2, 0⟩],
        [⟨"ABC", 5, some "BUY", 1, 50⟩]⟩)],
      [("ABC", 1)], [("ABC", ⟨10, 10⟩)]⟩
    ⟨[], [("P", ⟨"P", [], [⟨"ABC", 3, some "BUY", 1, 30⟩]⟩)],
      [("ABC", 1)], [("ABC", ⟨10, 10⟩)]⟩
    ⟨"P", [⟨"o9", "P", "ABC", "MKT", "SELL", 2, 0⟩],
      [⟨"ABC", 5, some "BUY", 1, 50⟩]⟩
    (by simp [lookupA]) (by simp) (by simp)
    (by simp [updatePositionsFallible, computeNewPositions, replacePositions,
        updateExistingPosition, updateExistingBuyPosition, sideOfQty, lookupA, setA]
        norm_num)

/-- Witness for C7 amended: a long position of 5 valued 50, bought for 20
and sold back for 24, returns to quantity 5 side BUY with value 46. -/
theorem C7_netting_round_trip_amended_witness :
    ∃ p1, updateExistingPosition ⟨"ABC", 5, some "BUY", 1, 50⟩
        ⟨"ABC", 2, some "BUY", 1, 20⟩ = some p1 ∧
      updateExistingPosition p1 ⟨"ABC", 2, some "SELL", 1, 24⟩ =
        some { (⟨"ABC", 5, some "BUY", 1, 50⟩ : Position) with
          value := (⟨"ABC", 5, some "BUY", 1, 50⟩ : Position).value + 20 - 24 } ∧
      ((24 : ℚ) = 20 →
        ({ (⟨"ABC", 5, some "BUY", 1, 50⟩ : Position) with
          value := (⟨"ABC", 5, some "BUY", 1, 50⟩ : Position).value + 20 - 24 } : Position) =
          ⟨"ABC", 5, some "BUY", 1, 50⟩) := by
  exact C7_netting_round_trip_amended ⟨"ABC", 5, some "BUY", 1, 50⟩ 2 20 24
    "ABC" "ABC" 1 1 rfl (by norm_num) (by norm_num)

/-- C8: a wholesale quote-source failure is swallowed and leaves the
cycle's quote cache empty (an `Except.ok []`, not an error); a snapshot
whose conid is mapped but which is missing the bid field "84" or the ask
field "86" contributes nothing to the cache; and an order whose symbol
has no quote is skipped with no state change, remaining pending. -/
theorem C8_quote_failure_handling (cm : List (String × Int)) (msg : String)
    (snap : Snapshot) (snaps : List Snapshot) (acc : List (String × Quote))
    (sym : String) (o : Order) (s : ManagerState) (w : Bool) :
    getMarketDataSnapshots cm (Except.error msg) = Except.ok [] ∧
    (revLookup cm snap.conidEx = some sym →
      (snap.field84 = Option.none ∨ snap.field86 = Option.none) →
      processSnapshots cm (snap :: snaps) acc = processSnapshots cm snaps acc) ∧
    (lookupA s.symbolPriceMap o.symbol = Option.none →
      processOrderStep w o s = Except.ok s) := by
  refine ⟨?_, ?_, ?_⟩
  · by_cases hcm : cm = []
    · simp [getMarketDataSnapshots, hcm]
    · simp [getMarketDataSnapshots, hcm]
  · intro hrev hmiss
    rcases hmiss with hmiss | hmiss
    · simp [processSnapshots, hrev, hmiss]
    · cases h84 : snap.field84 with
      | none => simp [processSnapshots, hrev, hmiss, h84]
      | some b => simp [processSnapshots, hrev, hmiss, h84]
  · intro hmiss
    simp [processOrderStep, hmiss]

/-- Witness for C8: a failing snapshot call with a nonempty conid map
yields the empty cache; a mapped snapshot without a bid field is
dropped; a pending order with no quote passes through unchanged. -/
theorem C8_quote_failure_handling_witness :
    getMarketDataSnapshots [("ABC", 1)] (Except.error "transport error") =
      Except.ok [] ∧
    processSnapshots [("ABC", 1)] [⟨1, Option.none, some 6⟩] [] =
      processSnapshots [("ABC", 1)] [] [] ∧
    processOrderStep true ⟨"o1", "P", "ABC", "MKT", "BUY", 5, 0⟩
        ⟨[⟨"o1", "P", "ABC", "MKT", "BUY", 5, 0⟩],
          [("P", ⟨"P", [⟨"o1", "P", "ABC", "MKT", "BUY", 5, 0⟩], []⟩)],
          [("ABC", 1)], []⟩ =
      Except.ok
        ⟨[⟨"o1", "P", "ABC", "MKT", "BUY", 5, 0⟩],
          [("P", ⟨"P", [⟨"o1", "P", "ABC", "MKT", "BUY", 5, 0⟩], []⟩)],
          [("ABC", 1)], []⟩ := by
  have h := C8_quote_failure_handling [("ABC", 1)] "transport error"
    ⟨1, Option.none, some 6⟩ [] [] "ABC" ⟨"o1", "P", "ABC", "MKT", "BUY", 5, 0⟩
    ⟨[⟨"o1", "P", "ABC", "MKT", "BUY", 5, 0⟩],
      [("P", ⟨"P", [⟨"o1", "P", "ABC", "MKT", "BUY", 5, 0⟩], []⟩)],
      [("ABC", 1)], []⟩ true
  exact ⟨h.1, h.2.1 (by simp [revLookup]) (Or.inl rfl), h.2.2 (by simp [lookupA])⟩

/-- C10: a quote-source response containing a snapshot whose conidEx (2)
is absent from the cycle's symbol-to-conid map (ABC maps to 1) makes the
quote-refresh step raise outside its try block: the cycle returns an
error rather than a state, and the run loop terminates without
processing the remaining cycles — here the loop ends in the error state
even though a second, benign cycle input was queued. -/
theorem C10_unmapped_conid_crashes_loop :
    runLoop true [("ABC", 1)]
      [Except.ok [⟨2, some 5, some 6⟩], Except.ok []]
      ⟨[⟨"o1", "P", "ABC", "MKT", "BUY", 5, 0⟩],
        [("P", ⟨"P", [⟨"o1", "P", "ABC", "MKT", "BUY", 5, 0⟩], []⟩)], [], []⟩ =
      Except.error
        ⟨[⟨"o1", "P", "ABC", "MKT", "BUY", 5, 0⟩],
          [("P", ⟨"P", [⟨"o1", "P", "ABC", "MKT", "BUY", 5, 0⟩], []⟩)],
          [("ABC", 1)], []⟩ := by
  simp [runLoop, runCycle, mapOrdersToConids, getMarketDataSnapshots,
    processSnapshots, revLookup, setA]
